import Mathlib

/-!
Verification model of the embedded Python execution sandbox of the
lotus-notebook repository (`src/pythonexecutor.cpp`, `src/variableinspector.cpp`).

The C++ core is shallowly embedded: `QString` is modelled as `String`
(internally processed as `List Char`), `QByteArray` as `List Nat` (byte
values), the embedded Python interpreter's observable behaviour during one
`PyRun_StringFlags` evaluation as an explicit `EvalSpec` record (what the
snippet writes to the redirected `sys.stdout` / `sys.stderr` sinks, how long
it runs, whether it raises, which global bindings it creates, and what the
plot-capture helper returns afterwards), and the executor object as an
explicit `ExecState` record.  An `execute` call that never returns (the
evaluation never finishes while no alarm is armed) is modelled as `none`.
-/

namespace LotusNotebook

/-! ## Text utilities (model of the QString operations used by the executor) -/

/-- Model of `QChar::isSpace` restricted to the ASCII range: blank and the
control characters 9..13 (tab, newline, vertical tab, form feed, carriage
return).  This is the whitespace notion behind `QString::trimmed`. -/
def isQtSpace (c : Char) : Bool :=
  c.toNat = 32 || (9 ≤ c.toNat && c.toNat ≤ 13)

/-- Drop leading whitespace characters. -/
def dropLeadingWs : List Char → List Char
  | [] => []
  | c :: cs => if isQtSpace c then dropLeadingWs cs else c :: cs

/-- Model of `QString::trimmed`: remove leading and trailing whitespace. -/
def qtrimL (cs : List Char) : List Char :=
  dropLeadingWs (dropLeadingWs cs.reverse).reverse

/-- Model of `QString::split('\n')`: split on every newline, keeping empty
parts (an empty string yields one empty part, as in Qt). -/
def splitLines : List Char → List (List Char)
  | [] => [[]]
  | c :: cs =>
    if c = '\n' then [] :: splitLines cs
    else
      match splitLines cs with
      | [] => [[c]]
      | l :: ls => (c :: l) :: ls

/-- Join lines with a single newline between them (no trailing newline);
used to state the specification-side formulation of `textOutput`. -/
def joinNl : List (List Char) → List Char
  | [] => []
  | [l] => l
  | l :: ls => l ++ '\n' :: joinNl ls

/-- The sentinel token of the rich-output line protocol, `LOTUS_OUTPUT:`. -/
def sentinelMark : List Char :=
  ['L', 'O', 'T', 'U', 'S', '_', 'O', 'U', 'T', 'P', 'U', 'T', ':']

/-- Model of `line.startsWith("LOTUS_OUTPUT:")`. -/
def isSentinelLine (l : List Char) : Bool :=
  sentinelMark.isPrefixOf l

/-- Model of the plain-text extraction loop in `PythonExecutor::execute`
(lines 472-478): every line strictly before the first sentinel line is
appended followed by a newline; the loop breaks at the first sentinel line. -/
def plainTextBefore : List (List Char) → List Char
  | [] => []
  | l :: ls => if isSentinelLine l then [] else l ++ '\n' :: plainTextBefore ls

/-! ## Base64 (model of `QByteArray::fromBase64`) -/

/-- Value of one base64 alphabet character, `none` for characters outside
the alphabet (Qt's lenient decoder skips those). -/
def b64Val (c : Char) : Option Nat :=
  if 'A' ≤ c && c ≤ 'Z' then some (c.toNat - 65)
  else if 'a' ≤ c && c ≤ 'z' then some (c.toNat - 97 + 26)
  else if '0' ≤ c && c ≤ '9' then some (c.toNat - 48 + 52)
  else if c = '+' then some 62
  else if c = '/' then some 63
  else none

/-- Bit-accumulating base64 decoding loop: `buf` holds `nbits` pending bits;
every time eight bits are available one byte is emitted. -/
def fromBase64Aux : List Char → Nat → Nat → List Nat
  | [], _, _ => []
  | c :: cs, buf, nbits =>
    match b64Val c with
    | none => fromBase64Aux cs buf nbits
    | some d =>
      let buf' := buf * 64 + d
      let nbits' := nbits + 6
      if 8 ≤ nbits' then
        (buf' / 2 ^ (nbits' - 8)) :: fromBase64Aux cs (buf' % 2 ^ (nbits' - 8)) (nbits' - 8)
      else fromBase64Aux cs buf' nbits'

/-- Model of `QByteArray::fromBase64` (lenient mode: characters outside the
base64 alphabet, including `=` padding, are skipped). -/
def fromBase64 (s : String) : List Nat :=
  fromBase64Aux s.data 0 0

/-! ## JSON (model of `QJsonDocument::fromJson` / `QJsonObject`)

The sentinel payloads of the rich-output protocol are flat JSON objects
whose values are strings (`{"type": ..., "content": ...}`).  The parser
below models `QJsonDocument::fromJson` restricted to that shape: it accepts
a single object with string keys and string values (with the common escape
sequences) and rejects everything else.  Payloads outside this shape are
treated as unparseable, which coincides with being dropped by
`parseRichOutputs` exactly as a parse failure is. -/

def isJsonWs (c : Char) : Bool :=
  c = ' ' || c = '\t' || c = '\n' || c = '\r'

def skipJsonWs (cs : List Char) : List Char :=
  cs.dropWhile isJsonWs

/-- Parse the body of a JSON string (the opening quote already consumed),
returning the decoded content and the remaining characters. -/
def parseJStringAux : List Char → Option (List Char × List Char)
  | [] => none
  | c :: cs =>
    if c = '"' then some ([], cs)
    else if c = '\\' then
      match cs with
      | [] => none
      | e :: cs' =>
        let dec : Option Char :=
          if e = '"' then some '"'
          else if e = '\\' then some '\\'
          else if e = '/' then some '/'
          else if e = 'n' then some '\n'
          else if e = 't' then some '\t'
          else if e = 'r' then some '\r'
          else none
        match dec with
        | none => none
        | some ch =>
          match parseJStringAux cs' with
          | none => none
          | some (content, rest) => some (ch :: content, rest)
    else
      match parseJStringAux cs with
      | none => none
      | some (content, rest) => some (c :: content, rest)

/-- Parse the members of a JSON object after the opening brace, up to and
including the closing brace.  `fuel` bounds the number of members. -/
def parseJMembers : Nat → List Char → Option (List (String × String) × List Char)
  | 0, _ => none
  | fuel + 1, cs =>
    match skipJsonWs cs with
    | '"' :: cs1 =>
      match parseJStringAux cs1 with
      | none => none
      | some (key, cs2) =>
        match skipJsonWs cs2 with
        | ':' :: cs3 =>
          match skipJsonWs cs3 with
          | '"' :: cs4 =>
            match parseJStringAux cs4 with
            | none => none
            | some (val, cs5) =>
              match skipJsonWs cs5 with
              | ',' :: cs6 =>
                match parseJMembers fuel cs6 with
                | none => none
                | some (rest, cs7) => some ((String.mk key, String.mk val) :: rest, cs7)
              | c :: cs6 =>
                if c = '\x7d' then some ([(String.mk key, String.mk val)], cs6) else none
              | [] => none
          | _ => none
        | _ => none
    | _ => none

/-- Model of `QJsonDocument::fromJson` followed by `.object()`, restricted to
flat objects with string values: `none` models a `QJsonParseError`. -/
def parseJsonObjectL (cs : List Char) : Option (List (String × String)) :=
  match skipJsonWs cs with
  | c :: cs1 =>
    if c = '\x7b' then
      match skipJsonWs cs1 with
      | c2 :: cs2 =>
        if c2 = '\x7d' then
          if skipJsonWs cs2 = [] then some [] else none
        else
          match parseJMembers (cs.length + 1) cs1 with
          | none => none
          | some (obj, rest) => if skipJsonWs rest = [] then some obj else none
      | [] => none
    else none
  | [] => none

/-- Model of `QJsonObject::operator[]` followed by `toString()`: the value
bound to `key`, or the empty string when the key is absent. -/
def jsonGetString (obj : List (String × String)) (key : String) : String :=
  match obj.find? (fun p => p.1 = key) with
  | some p => p.2
  | none => ""

/-! ## Rich output protocol (`PythonExecutor::parseRichOutputs`, lines 521-576) -/

/-- The tag of `PythonExecutor::Output` (header lines 22-30). -/
inductive OutputType
  | Text
  | Error
  | Html
  | Table
  | Image
  | Markdown
  | Rich
deriving Repr, DecidableEq

/-- Model of `PythonExecutor::Output`: a tagged rich output.  `content` carries the
string payload (text, error, html, table, markdown, rich), `imageData` the
decoded bytes of an image output; the respectively unused field keeps its
default value (empty), as with the default-constructed C++ members. -/
structure Output where
  type : OutputType
  content : String
  imageData : List Nat
deriving Repr, DecidableEq

/-- The `type` strings recognised by `parseRichOutputs`. -/
def recognizedTypes : List String :=
  ["text", "html", "table", "image", "error", "rich", "markdown"]

/-- Processing of one captured line by the loop of `parseRichOutputs`:
a non-sentinel line contributes nothing; a sentinel line has its payload
trimmed and JSON-parsed, a parse failure or an unrecognised `type` is
silently dropped, and each recognised `type` yields one `Output`. -/
def parseLineL (l : List Char) : List Output :=
  if isSentinelLine l then
    let jsonStr := qtrimL (l.drop sentinelMark.length)
    match parseJsonObjectL jsonStr with
    | none => []
    | some obj =>
      let ty := jsonGetString obj "type"
      let content := jsonGetString obj "content"
      if ty = "text" then [⟨OutputType.Text, content, []⟩]
      else if ty = "html" then [⟨OutputType.Html, content, []⟩]
      else if ty = "table" then [⟨OutputType.Table, content, []⟩]
      else if ty = "image" then [⟨OutputType.Image, "", fromBase64 content⟩]
      else if ty = "error" then [⟨OutputType.Error, content, []⟩]
      else if ty = "rich" then [⟨OutputType.Rich, content, []⟩]
      else if ty = "markdown" then [⟨OutputType.Markdown, content, []⟩]
      else []
  else []

/-- Model of `PythonExecutor::parseRichOutputs`: split the captured stream on
newlines and collect the outputs contributed by each line in order. -/
def parseRichOutputsL (cs : List Char) : List Output :=
  ((splitLines cs).map parseLineL).flatten

/-- String-level wrapper of `parseRichOutputsL`. -/
def parseRichOutputs (s : String) : List Output :=
  parseRichOutputsL s.data

/-- The stdout post-processing block of `PythonExecutor::execute`
(lines 467-489): when the captured stream is non-empty, parse the rich
outputs, extract the trimmed plain text before the first sentinel line,
and, when both results are empty, fall back to wrapping the whole raw
stream as a single text output.  Returns `(textOutput, outputs)`. -/
def processStdoutL (cs : List Char) : List Char × List Output :=
  if cs = [] then ([], [])
  else
    let outs := parseRichOutputsL cs
    let textOut := qtrimL (plainTextBefore (splitLines cs))
    let outs' := if textOut = [] && outs = [] then [⟨OutputType.Text, String.mk cs, []⟩] else outs
    (textOut, outs')

/-! ## Executor state and lifecycle (`PythonExecutor`) -/

/-- One top-level binding of the session namespace (the `__main__` module
dictionary): its name, the name of its runtime type, and its `repr`. -/
structure Binding where
  name : String
  typeName : String
  value : String
deriving Repr, DecidableEq

/-- Dictionary update: rebind the name if present, else append (Python dicts
preserve insertion order). -/
def nsBind (g : List Binding) (b : Binding) : List Binding :=
  if g.any (fun x => x.name = b.name) then
    g.map (fun x => if x.name = b.name then b else x)
  else g ++ [b]

def nsBindAll (g : List Binding) (bs : List Binding) : List Binding :=
  bs.foldl nsBind g

/-- The dunder names present in a fresh `__main__` module dictionary.
The `repr` strings are representative values; no claim depends on them. -/
def dunderBindings : List Binding :=
  [⟨"__name__", "str", "__main__"⟩,
   ⟨"__doc__", "NoneType", "None"⟩,
   ⟨"__package__", "NoneType", "None"⟩,
   ⟨"__loader__", "type", "<class _frozen_importlib.BuiltinImporter>"⟩,
   ⟨"__spec__", "NoneType", "None"⟩,
   ⟨"__builtins__", "module", "<module builtins (built-in)>"⟩]

/-- The global bindings installed by `PythonExecutor::initialize` in order:
the fresh-module dunders, then `sys`, `io` and the `LotusStdoutCapture`
class from `setupStdoutRedirection`, then (when plot capture is enabled)
`base64`, the `PlotCapture` class and the `lotus_plot_capture` instance
from `setupPlotCapture`, then the common-module imports (`base64` when not
already bound, and `signal`).  The environment-dependent `numpy` import
binds nothing in `__main__` (it goes through `PyImport_ImportModule`), and
`matplotlib` is modelled as absent — when present it would only add the
further bindings `matplotlib` and `plt`. -/
def bootstrapGlobals (plotCapture : Bool) : List Binding :=
  dunderBindings ++
  [⟨"sys", "module", "<module sys (built-in)>"⟩,
   ⟨"io", "module", "<module io (frozen)>"⟩,
   ⟨"LotusStdoutCapture", "type", "<class __main__.LotusStdoutCapture>"⟩,
   ⟨"base64", "module", "<module base64>"⟩] ++
  (if plotCapture then
    [⟨"PlotCapture", "type", "<class __main__.PlotCapture>"⟩,
     ⟨"lotus_plot_capture", "PlotCapture", "<__main__.PlotCapture object>"⟩]
   else []) ++
  [⟨"signal", "module", "<module signal>"⟩]

/-- The observable state of a `PythonExecutor` object: the `initialized`
flag, the configuration fields used by `execute`, the `__main__` global
dictionary, the `output` buffers of the two installed
`LotusStdoutCapture` sinks, and the `executionInterrupted` flag. -/
structure ExecState where
  initialized : Bool
  plotCaptureEnabled : Bool
  executionTimeout : Nat
  globals : List Binding
  stdoutBuf : String
  stderrBuf : String
  interrupted : Bool
deriving Repr, DecidableEq

/-- The state built by the `PythonExecutor` constructor (lines 38-53):
not initialized, 10000 ms timeout, plot capture enabled. -/
def freshExecutor : ExecState :=
  { initialized := false
    plotCaptureEnabled := true
    executionTimeout := 10000
    globals := []
    stdoutBuf := ""
    stderrBuf := ""
    interrupted := false }

/-- Model of `PythonExecutor::initialize` (lines 60-143): idempotent; otherwise
starts the interpreter, creates the `__main__` namespace, installs the
capture sinks (with empty buffers) and the bootstrap bindings.  The model
assumes the embedded runtime starts successfully. -/
def initializeExecutor (s : ExecState) : ExecState :=
  if s.initialized then s
  else
    { s with
      initialized := true
      globals := bootstrapGlobals s.plotCaptureEnabled
      stdoutBuf := ""
      stderrBuf := "" }

/-- Model of `PythonExecutor::cleanup` (lines 145-165): a no-op when not
initialized; otherwise finalizes the interpreter, destroying the namespace
and the capture sinks. -/
def cleanup (s : ExecState) : ExecState :=
  if s.initialized then
    { s with initialized := false, globals := [], stdoutBuf := "", stderrBuf := "" }
  else s

/-- Model of `PythonExecutor::restart` (lines 167-171): `cleanup` then
reinitialization. -/
def restart (s : ExecState) : ExecState :=
  initializeExecutor (cleanup s)

/-- Model of `PythonExecutor::interrupt` (lines 173-177). -/
def interrupt (s : ExecState) : ExecState :=
  { s with interrupted := true }

/-! ## One `execute` call -/

/-- The observable behaviour of one snippet evaluation
(`PyRun_StringFlags` plus the subsequent plot-capture call):

* `stdoutWrites` / `stderrWrites` — the text the snippet writes to the
  redirected `sys.stdout` / `sys.stderr` sinks before the evaluation ends
  or is unwound;
* `durationMs` — the wall-clock running time of the evaluation, `none`
  when the snippet never finishes on its own (e.g. `while True: pass`);
* `raises` — `some (message, formattedTraceback)` when the snippet raises
  an uncaught exception (`str(value)` and the joined `traceback.format_tb`
  rendering), `none` when it completes normally;
* `binds` — the global bindings the snippet creates before that point;
* `plotHelperReturns` — what `lotus_plot_capture.capture_current_plot()`
  returns afterwards: `some base64Image` when a figure was rendered,
  `none` (the Python `None`) otherwise. -/
structure EvalSpec where
  stdoutWrites : String
  stderrWrites : String
  durationMs : Option Nat
  raises : Option (String × String)
  binds : List Binding
  plotHelperReturns : Option String
deriving Repr, DecidableEq

/-- The error string produced by the exception rendering of
`PythonExecutor::execute` (lines 392-429): `str(value)` with the formatted
traceback prepended. -/
def evalErrorOf (e : EvalSpec) : String :=
  match e.raises with
  | none => ""
  | some (msg, tb) => tb ++ msg

/-- The call never returns: the evaluation never finishes while
`alarm(executionTimeout / 1000)` armed no deadline; `alarm(0)` cancels any
pending alarm, so nothing ever unwinds the evaluation. -/
def divergesCall (timeoutMs : Nat) (e : EvalSpec) : Bool :=
  e.durationMs.isNone && timeoutMs / 1000 == 0

/-- The deadline fires during the evaluation: an alarm was armed (the
timeout, integer-divided by 1000, is at least one second) and the
evaluation runs past it. -/
def timesOut (timeoutMs : Nat) (e : EvalSpec) : Bool :=
  match e.durationMs with
  | none => !(timeoutMs / 1000 == 0)
  | some d => !(timeoutMs / 1000 == 0) && decide ((timeoutMs / 1000) * 1000 < d)

/-- The result of one `execute` call together with the post-call executor
state and two further observables: the text drained from each sink during
the call (the local `stdoutText` / `stderrText` of `execute`; empty on the
timed-out path, which drains nothing) and the payloads of the
`plotGenerated` signals emitted by `capturePlot`. -/
structure ExecutionResult where
  success : Bool
  textOutput : String
  error : String
  plotData : List Nat
  outputs : List Output
deriving Repr, DecidableEq

structure Outcome where
  state : ExecState
  result : ExecutionResult
  capturedStdout : String
  capturedStderr : String
  emittedPlots : List (List Nat)
deriving Repr, DecidableEq

/-- The forced-unwind exit of `execute` (lines 452-456): the sinks are not
drained and not cleared, `plotData` stays empty, and the error message
reports the timeout in whole seconds. -/
def timeoutOutcome (s : ExecState) : Outcome :=
  { state := s
    result :=
      { success := false
        textOutput := ""
        error := "Execution timed out after " ++ toString (s.executionTimeout / 1000) ++ " seconds"
        plotData := []
        outputs := [] }
    capturedStdout := ""
    capturedStderr := ""
    emittedPlots := [] }

/-- The normal exit of `execute` (snippet completed or raised): success and
the exception rendering are determined by the evaluation, `capturePlot`
runs only on success (and only emits a signal — `result.plotData` is never
assigned), both sinks are drained and cleared, the drained stdout is
post-processed into `textOutput` and `outputs`, and any drained stderr is
prepended to the error. -/
def normalOutcome (s : ExecState) (e : EvalSpec) : Outcome :=
  let success := e.raises.isNone
  let evalErr := evalErrorOf e
  let emitted :=
    if success && s.plotCaptureEnabled then
      match e.plotHelperReturns with
      | some b64 => [fromBase64 b64]
      | none => []
    else []
  let stdoutText := s.stdoutBuf
  let stderrText := s.stderrBuf
  let po := processStdoutL stdoutText.data
  let err :=
    if stderrText = "" then evalErr
    else if evalErr = "" then stderrText
    else stderrText ++ "\n" ++ evalErr
  { state := { s with stdoutBuf := "", stderrBuf := "" }
    result :=
      { success := success
        textOutput := String.mk po.1
        error := err
        plotData := []
        outputs := po.2 }
    capturedStdout := stdoutText
    capturedStderr := stderrText
    emittedPlots := emitted }

/-- The entry sequence of `execute` (lines 315-323): the interrupt flag is
reset, then the executor is initialized on demand. -/
def prepared (s : ExecState) : ExecState :=
  let s0 := { s with interrupted := false }
  if s0.initialized then s0 else initializeExecutor s0

/-- The early-interrupt exit of `execute` (lines 326-330); unreachable in
practice because the flag was just reset. -/
def interruptOutcome (s : ExecState) : Outcome :=
  { state := s
    result :=
      { success := false
        textOutput := ""
        error := "Execution interrupted by user"
        plotData := []
        outputs := [] }
    capturedStdout := ""
    capturedStderr := ""
    emittedPlots := [] }

/-- The state during/after the evaluation itself: the snippet's writes are
appended to the sink buffers and its bindings applied to the namespace. -/
def evalState (s : ExecState) (e : EvalSpec) : ExecState :=
  { s with
    stdoutBuf := s.stdoutBuf ++ e.stdoutWrites
    stderrBuf := s.stderrBuf ++ e.stderrWrites
    globals := nsBindAll s.globals e.binds }

/-- Model of `PythonExecutor::execute` (lines 309-502).  The interrupt flag is reset
on entry (so the subsequent check can never fire), the executor is
initialized on demand, the evaluation appends the snippet's writes to the
sinks and its bindings to the namespace, and the call exits through the
diverging, timed-out or normal path.  `none` models a call that never
returns. -/
def execute (s : ExecState) (e : EvalSpec) : Option Outcome :=
  let s1 := prepared s
  if s1.interrupted then some (interruptOutcome s1)
  else if divergesCall s1.executionTimeout e then none
  else if timesOut s1.executionTimeout e then some (timeoutOutcome (evalState s1 e))
  else some (normalOutcome (evalState s1 e) e)

/-! ## Variable snapshot (`PythonExecutor::getVariables`, lines 621-700) -/

/-- The fixed name block-list of `getVariables` (lines 651-655), verbatim
(including the duplicated `quit` and `exit` entries). -/
def internalNames : List String :=
  ["In", "Out", "exit", "quit", "get_ipython", "open", "quit", "exit",
   "__name__", "__builtins__", "__doc__", "__loader__", "__spec__", "__package__"]

/-- The private-name filter of `getVariables` (line 646): skip names with a
single leading underscore, but keep double-underscore names
(`QString::startsWith`, modelled on the character list). -/
def isPrivateName (name : String) : Bool :=
  ['_'].isPrefixOf name.data && !(['_', '_'].isPrefixOf name.data)

/-- Model of `PythonExecutor::getVariables`: empty when not initialized; otherwise
one `(name, type, value)` entry per surviving global binding, where `value`
is the full `repr` of the value (no truncation is applied). -/
def getVariables (s : ExecState) : List (String × String × String) :=
  if s.initialized then
    s.globals.filterMap (fun b =>
      if isPrivateName b.name then none
      else if internalNames.contains b.name then none
      else some (b.name, b.typeName, b.value))
  else []

/-- Model of `VariableInspector::parsePythonValue` (variableinspector.cpp lines
292-302): truncate a repr to at most 100 characters, appending an ellipsis
marker when longer.  (No caller of this helper exists in the repository.) -/
def parsePythonValue (rep : String) : String :=
  if rep.length ≤ 100 then rep
  else rep.take 100 ++ "..."

/-! ## Concrete scenarios used by the witnesses and counterexamples -/

/-- A freshly initialized session (what the first `execute` call builds). -/
def sessionReady : ExecState :=
  initializeExecutor freshExecutor

/-- Snippet `while True: pass`: writes nothing, never finishes. -/
def evalInfiniteLoop : EvalSpec :=
  ⟨"", "", none, none, [], none⟩

/-- Snippet `print('ran')`: completes immediately with one line of stdout. -/
def evalPrintRan : EvalSpec :=
  ⟨"ran\n", "", some 0, none, [], none⟩

/-- Snippet `print('leak'); while True: pass`: one line of stdout already written
when the evaluation is forcibly unwound. -/
def evalLeakThenLoop : EvalSpec :=
  ⟨"leak\n", "", none, none, [], none⟩

/-- Snippet `pass`: completes immediately, writes nothing. -/
def evalQuiet : EvalSpec :=
  ⟨"", "", some 0, none, [], none⟩

/-- Snippet `sys.stderr.write('warn'); while True: pass`. -/
def evalWarnThenLoop : EvalSpec :=
  ⟨"", "warn", none, none, [], none⟩

/-- Snippet `sys.stderr.write('warning')` then normal completion. -/
def evalWarnOk : EvalSpec :=
  ⟨"", "warning", some 0, none, [], none⟩

/-- A successful run that renders a figure; the plot-capture helper
returns the base64 string `aGVsbG8=` (the bytes of `hello`). -/
def evalWithPlot : EvalSpec :=
  ⟨"", "", some 0, none, [], some "aGVsbG8="⟩

/-- A repr of 150 characters, longer than the 100-character display cap. -/
def longRepr : String :=
  String.mk (List.replicate 150 'a')

/-- Snippet `x = 'a' * 150`: binds one global whose repr is 150 characters long. -/
def evalBindX : EvalSpec :=
  ⟨"", "", some 0, none, [⟨"x", "str", longRepr⟩], none⟩

/-- The outcome of running `evalBindX` on a fresh session. -/
def outBindX : Outcome :=
  normalOutcome (evalState (prepared sessionReady) evalBindX) evalBindX

/-- The outcome of running `evalWarnOk` on a fresh session. -/
def outWarnOk : Outcome :=
  normalOutcome (evalState (prepared sessionReady) evalWarnOk) evalWarnOk

/-! ## Structural lemmas -/

theorem prepared_interrupted (s : ExecState) : (prepared s).interrupted = false := by
  unfold prepared initializeExecutor
  dsimp only
  split <;> rfl

theorem prepared_executionTimeout (s : ExecState) :
    (prepared s).executionTimeout = s.executionTimeout := by
  unfold prepared initializeExecutor
  dsimp only
  split <;> rfl

theorem prepared_initialized (s : ExecState) : (prepared s).initialized = true := by
  unfold prepared initializeExecutor
  dsimp only
  split
  · assumption
  · rfl

theorem prepared_plotCaptureEnabled (s : ExecState) :
    (prepared s).plotCaptureEnabled = s.plotCaptureEnabled := by
  unfold prepared initializeExecutor
  dsimp only
  split <;> rfl

theorem prepared_of_initialized (s : ExecState) (h : s.initialized = true) :
    prepared s = { s with interrupted := false } := by
  unfold prepared
  dsimp only
  split
  · rfl
  · next h' => exact absurd h h'

theorem execute_eq_none (s : ExecState) (e : EvalSpec)
    (hd : divergesCall s.executionTimeout e = true) :
    execute s e = none := by
  unfold execute
  dsimp only
  rw [prepared_interrupted, prepared_executionTimeout, hd]
  rfl

theorem execute_eq_timeout (s : ExecState) (e : EvalSpec)
    (ht : timesOut s.executionTimeout e = true) :
    execute s e = some (timeoutOutcome (evalState (prepared s) e)) := by
  have hd : divergesCall s.executionTimeout e = false := by
    unfold divergesCall
    unfold timesOut at ht
    cases h : e.durationMs with
    | none => rw [h] at ht; simpa using ht
    | some d => simp [h]
  unfold execute
  dsimp only
  rw [prepared_interrupted, prepared_executionTimeout, hd, ht]
  rfl

theorem execute_eq_normal (s : ExecState) (e : EvalSpec)
    (hd : divergesCall s.executionTimeout e = false)
    (ht : timesOut s.executionTimeout e = false) :
    execute s e = some (normalOutcome (evalState (prepared s) e) e) := by
  unfold execute
  dsimp only
  rw [prepared_interrupted, prepared_executionTimeout, hd, ht]
  rfl

/-! ## Lemmas about the plain-text extraction -/

/-- Concatenate each line followed by one newline (what the extraction loop
accumulates before trimming). -/
def concatNl : List (List Char) → List Char
  | [] => []
  | l :: ls => l ++ '\n' :: concatNl ls

theorem dropLeadingWs_newline (cs : List Char) :
    dropLeadingWs ('\n' :: cs) = dropLeadingWs cs := rfl

theorem qtrimL_append_newline (cs : List Char) :
    qtrimL (cs ++ ['\n']) = qtrimL cs := by
  unfold qtrimL
  rw [List.reverse_append]
  simp only [List.reverse_cons, List.reverse_nil, List.nil_append, List.singleton_append]
  rw [dropLeadingWs_newline]

theorem plainTextBefore_eq (ls : List (List Char)) :
    plainTextBefore ls = concatNl (ls.takeWhile (fun l => !isSentinelLine l)) := by
  induction ls with
  | nil => rfl
  | cons l ls ih =>
    by_cases h : isSentinelLine l = true
    · simp [plainTextBefore, List.takeWhile_cons, h, concatNl]
    · simp only [Bool.not_eq_true] at h
      simp [plainTextBefore, List.takeWhile_cons, h, concatNl, ih]

theorem concatNl_eq (ls : List (List Char)) (h : ls ≠ []) :
    concatNl ls = joinNl ls ++ ['\n'] := by
  induction ls with
  | nil => exact absurd rfl h
  | cons l ls ih =>
    cases ls with
    | nil => simp [concatNl, joinNl]
    | cons a as =>
      have h2 := ih (by simp)
      show l ++ '\n' :: concatNl (a :: as) = joinNl (l :: a :: as) ++ ['\n']
      rw [h2]
      show l ++ '\n' :: (joinNl (a :: as) ++ ['\n']) =
        (l ++ '\n' :: joinNl (a :: as)) ++ ['\n']
      simp [List.append_assoc]

theorem qtrim_concatNl (ls : List (List Char)) :
    qtrimL (concatNl ls) = qtrimL (joinNl ls) := by
  by_cases h : ls = []
  · subst h; rfl
  · rw [concatNl_eq ls h, qtrimL_append_newline]

/-- The example stream of the specification: a sole sentinel line carrying
a text payload `hi`. -/
def sentinelHiLine : String := "LOTUS_OUTPUT:\x7b\"type\":\"text\",\"content\":\"hi\"\x7d"

/-- A sentinel line is dropped by `parseLineL`: its trimmed payload fails to
parse as JSON, or its `type` is not one of the recognised strings. -/
def payloadDropped (l : List Char) : Bool :=
  match parseJsonObjectL (qtrimL (l.drop sentinelMark.length)) with
  | none => true
  | some obj => !(recognizedTypes.contains (jsonGetString obj "type"))

/-- String structure eta: rebuilding a string from its character data gives
the same string. -/
theorem string_mk_data (s : String) : String.mk s.data = s := rfl

theorem data_ne_nil {s : String} (h : s ≠ "") : s.data ≠ [] := by
  intro hd
  apply h
  cases s with
  | mk d =>
    simp only at hd
    subst hd
    rfl

/-! ## Further concrete outcomes used below -/

/-- The outcome of the timed-out `while True: pass` call on a fresh
executor (default 10000 ms timeout). -/
def outTimeoutLoop : Outcome :=
  timeoutOutcome (evalState (prepared freshExecutor) evalInfiniteLoop)

/-- The outcome of `print('ran')` on a fresh executor. -/
def outRan : Outcome :=
  normalOutcome (evalState (prepared freshExecutor) evalPrintRan) evalPrintRan

/-- The outcome of a second `print('ran')` right after `outRan`. -/
def outRanAgain : Outcome :=
  normalOutcome (evalState (prepared outRan.state) evalPrintRan) evalPrintRan

/-- A snippet whose sole stdout line is a sentinel line with an
unparseable payload. -/
def evalSentinelBad : EvalSpec :=
  ⟨"LOTUS_OUTPUT:bad", "", some 0, none, [], none⟩

/-- The outcome of `evalSentinelBad` on a fresh executor. -/
def outSentinelBad : Outcome :=
  normalOutcome (evalState (prepared freshExecutor) evalSentinelBad) evalSentinelBad

/-- Timed-out call followed (without a restart) by `print('ran')`. -/
def traceTimeoutThenRun : Option Outcome :=
  match execute freshExecutor evalInfiniteLoop with
  | some o1 => execute o1.state evalPrintRan
  | none => none

/-- Trace: `print('leak'); while True: pass` (timed out) followed by `pass`. -/
def traceLeakThenQuiet : Option Outcome :=
  match execute freshExecutor evalLeakThenLoop with
  | some o1 => execute o1.state evalQuiet
  | none => none

/-! # Claims

One theorem per claim of the specification review, in claim order.  For the
corrected claims the counterexample theorem refutes the claim as stated and
the main theorem proves the amended statement. -/

/-- C1 (counterexample): the claim that no code is evaluated between a
timed-out `execute` and the next `restart` is false — on a fresh executor a
timed-out call (`success = false`) is followed, with no restart in between,
by an `execute` that evaluates its snippet normally and succeeds with its
printed output captured. -/
theorem execute_after_timeout_evaluates_code :
    (execute freshExecutor evalInfiniteLoop).map (fun o => o.result.success) = some false ∧
    traceTimeoutThenRun.map (fun o => (o.result.success, o.result.textOutput)) =
      some (true, "ran") :=
  ⟨rfl, rfl⟩

/-- C1 (amended): the executor keeps no quarantine state after a forced
unwind — after any timed-out `execute`, the very next `execute` (of a
snippet that terminates in time without raising) is not refused and
triggers no implicit restart: it evaluates the snippet, succeeds, and
applies the snippet's bindings to the surviving namespace.  Recovery is
left entirely to the caller's explicit `restart`. -/
theorem execute_after_timeout_not_refused (s : ExecState) (e1 e2 : EvalSpec) (o1 : Outcome)
    (h1 : execute s e1 = some o1)
    (ht1 : timesOut s.executionTimeout e1 = true)
    (hd2 : divergesCall o1.state.executionTimeout e2 = false)
    (ht2 : timesOut o1.state.executionTimeout e2 = false)
    (hr2 : e2.raises = none) :
    o1.result.success = false ∧
    ∃ o2, execute o1.state e2 = some o2 ∧ o2.result.success = true ∧
      o2.state.globals = nsBindAll o1.state.globals e2.binds := by
  rw [execute_eq_timeout s e1 ht1] at h1
  have ho := Option.some.inj h1
  subst ho
  refine ⟨rfl, _, execute_eq_normal _ e2 hd2 ht2, ?_, ?_⟩
  · show e2.raises.isNone = true
    rw [hr2]
    rfl
  · have hinit : (timeoutOutcome (evalState (prepared s) e1)).state.initialized = true :=
      prepared_initialized s
    show (evalState (prepared (timeoutOutcome (evalState (prepared s) e1)).state) e2).globals = _
    rw [prepared_of_initialized _ hinit]
    rfl

/-- Witness for C1: the amended theorem applied to the concrete trace of
the counterexample. -/
theorem execute_after_timeout_not_refused_witness :
    outTimeoutLoop.result.success = false ∧
    ∃ o2, execute outTimeoutLoop.state evalPrintRan = some o2 ∧ o2.result.success = true ∧
      o2.state.globals = nsBindAll outTimeoutLoop.state.globals evalPrintRan.binds :=
  execute_after_timeout_not_refused freshExecutor evalInfiniteLoop evalPrintRan outTimeoutLoop
    rfl rfl rfl rfl rfl

/-- C2 (counterexample): sequential isolation fails when the first call is
timed out — the `leak` line printed before the forced unwind of call 1 is
never drained there, and surfaces as the captured stdout and `textOutput`
of call 2 even though call 2's snippet writes nothing. -/
theorem timeout_leaks_output_into_next_call :
    traceLeakThenQuiet.map (fun o => (o.capturedStdout, o.result.textOutput)) =
      some ("leak\n", "leak") ∧
    evalQuiet.stdoutWrites = "" :=
  ⟨rfl, rfl⟩

/-- C2 (amended): for two consecutive `execute` calls on the same session,
if the first call returns without a timeout (normal completion or snippet
error), both sinks are drained and cleared by it, so the second call's
captured stdout and stderr consist exactly of the second snippet's own
writes — no text from call 1 appears in call 2's buffers or result.  After
a timed-out call the sinks are not cleared and the guarantee fails. -/
theorem consecutive_executes_isolated (s : ExecState) (e1 e2 : EvalSpec) (o1 o2 : Outcome)
    (h1 : execute s e1 = some o1)
    (ht1 : timesOut s.executionTimeout e1 = false)
    (h2 : execute o1.state e2 = some o2)
    (ht2 : timesOut o1.state.executionTimeout e2 = false) :
    o2.capturedStdout = e2.stdoutWrites ∧ o2.capturedStderr = e2.stderrWrites := by
  by_cases hd1 : divergesCall s.executionTimeout e1 = true
  · rw [execute_eq_none s e1 hd1] at h1
    exact absurd h1 (by simp)
  · rw [Bool.not_eq_true] at hd1
    rw [execute_eq_normal s e1 hd1 ht1] at h1
    have ho1 := Option.some.inj h1
    subst ho1
    by_cases hd2 :
        divergesCall (normalOutcome (evalState (prepared s) e1) e1).state.executionTimeout e2 = true
    · rw [execute_eq_none _ e2 hd2] at h2
      exact absurd h2 (by simp)
    · rw [Bool.not_eq_true] at hd2
      rw [execute_eq_normal _ e2 hd2 ht2] at h2
      have ho2 := Option.some.inj h2
      subst ho2
      have hinit : (normalOutcome (evalState (prepared s) e1) e1).state.initialized = true :=
        prepared_initialized s
      constructor
      · show (evalState (prepared (normalOutcome (evalState (prepared s) e1) e1).state) e2).stdoutBuf
          = e2.stdoutWrites
        rw [prepared_of_initialized _ hinit]
        rfl
      · show (evalState (prepared (normalOutcome (evalState (prepared s) e1) e1).state) e2).stderrBuf
          = e2.stderrWrites
        rw [prepared_of_initialized _ hinit]
        rfl

/-- Witness for C2: two consecutive `print('ran')` calls on a fresh
executor; the second call's captured streams are exactly its own writes. -/
theorem consecutive_executes_isolated_witness :
    outRanAgain.capturedStdout = evalPrintRan.stdoutWrites ∧
    outRanAgain.capturedStderr = evalPrintRan.stderrWrites :=
  consecutive_executes_isolated freshExecutor evalPrintRan evalPrintRan outRan outRanAgain
    rfl rfl rfl rfl

/-- C3: with `timeout_ms = 100` the arming call `alarm(100 / 1000)` is
`alarm(0)`, which cancels the alarm instead of scheduling one, so the
`execute` of `while True: pass` never returns at all — in particular it
never produces the `success = false` / timeout-error result the claim
requires. -/
theorem subsecond_timeout_call_never_returns :
    execute { freshExecutor with executionTimeout := 100 } evalInfiniteLoop = none :=
  rfl

/-- C4: after a successful `execute` with plot capture enabled whose helper
returns the base64 image `aGVsbG8=`, the decoded bytes are only emitted
through the `plotGenerated` signal (to which nothing is connected), while
the returned `ExecutionResult.plotData` — the field the main window reads —
stays empty. -/
theorem plot_bytes_emitted_but_not_attached :
    (execute sessionReady evalWithPlot).map
        (fun o => (o.result.success, o.result.plotData, o.emittedPlots)) =
      some (true, [], [[104, 101, 108, 108, 111]]) :=
  rfl

/-- C5 (counterexample): right after a `restart` the variable snapshot is
not empty (here: a session in which the user had defined `x`). -/
theorem restart_snapshot_nonempty :
    getVariables (restart outBindX.state) ≠ [] := by
  decide

/-- C5 (amended): after `restart()` the snapshot contains exactly the
bootstrap bindings installed by initialization that pass the name filter —
`sys`, `io`, `LotusStdoutCapture`, `base64`, (`PlotCapture` and
`lotus_plot_capture` when plot capture is enabled) and `signal` — because
the fixed exclusion list does not cover them; every user-defined binding
from before the restart is discarded. -/
theorem restart_snapshot_is_bootstrap (s : ExecState) :
    getVariables (restart s) =
      (if s.plotCaptureEnabled then
        [("sys", "module", "<module sys (built-in)>"),
         ("io", "module", "<module io (frozen)>"),
         ("LotusStdoutCapture", "type", "<class __main__.LotusStdoutCapture>"),
         ("base64", "module", "<module base64>"),
         ("PlotCapture", "type", "<class __main__.PlotCapture>"),
         ("lotus_plot_capture", "PlotCapture", "<__main__.PlotCapture object>"),
         ("signal", "module", "<module signal>")]
       else
        [("sys", "module", "<module sys (built-in)>"),
         ("io", "module", "<module io (frozen)>"),
         ("LotusStdoutCapture", "type", "<class __main__.LotusStdoutCapture>"),
         ("base64", "module", "<module base64>"),
         ("signal", "module", "<module signal>")]) ∧
    getVariables (restart s) ≠ [] := by
  have h1 : getVariables (restart s) =
      (if s.plotCaptureEnabled then
        [("sys", "module", "<module sys (built-in)>"),
         ("io", "module", "<module io (frozen)>"),
         ("LotusStdoutCapture", "type", "<class __main__.LotusStdoutCapture>"),
         ("base64", "module", "<module base64>"),
         ("PlotCapture", "type", "<class __main__.PlotCapture>"),
         ("lotus_plot_capture", "PlotCapture", "<__main__.PlotCapture object>"),
         ("signal", "module", "<module signal>")]
       else
        [("sys", "module", "<module sys (built-in)>"),
         ("io", "module", "<module io (frozen)>"),
         ("LotusStdoutCapture", "type", "<class __main__.LotusStdoutCapture>"),
         ("base64", "module", "<module base64>"),
         ("signal", "module", "<module signal>")]) := by
    obtain ⟨init, pc, tmo, g, ob, eb, itr⟩ := s
    cases init <;> cases pc <;> rfl
  refine ⟨h1, ?_⟩
  rw [h1]
  cases hpc : s.plotCaptureEnabled <;> simp

/-- C6: for every non-empty captured stdout stream, `textOutput` is the
trimmed newline-join of all lines strictly before the first sentinel line;
and the stream consisting solely of the sentinel line with payload
`type = text`, `content = hi` yields exactly one text output `hi` and an
empty `textOutput`. -/
theorem textOutput_trimmed_before_sentinel :
    (∀ cs : List Char, cs ≠ [] →
       (processStdoutL cs).1 =
         qtrimL (joinNl ((splitLines cs).takeWhile (fun l => !isSentinelLine l)))) ∧
    processStdoutL sentinelHiLine.data = ([], [⟨OutputType.Text, "hi", []⟩]) := by
  constructor
  · intro cs h
    unfold processStdoutL
    rw [if_neg h]
    dsimp only
    rw [plainTextBefore_eq, qtrim_concatNl]
  · rfl

/-- Witness for C6: the general part applied to the concrete stream
`hello`. -/
theorem textOutput_trimmed_before_sentinel_witness :
    "hello".data ≠ [] ∧
    (processStdoutL "hello".data).1 =
      qtrimL (joinNl ((splitLines "hello".data).takeWhile (fun l => !isSentinelLine l))) :=
  ⟨by decide, textOutput_trimmed_before_sentinel.1 "hello".data (by decide)⟩

/-- C7: a sentinel line whose payload fails to parse as JSON or whose
`type` is not one of the seven recognised strings contributes zero
`Output` entries; and the captured stdout content never influences the
result's `success` flag or its `error` string. -/
theorem malformed_sentinel_line_dropped :
    (∀ l : List Char, isSentinelLine l = true → payloadDropped l = true →
       parseLineL l = []) ∧
    (∀ (s : ExecState) (e : EvalSpec) (w1 w2 : String),
       (execute s { e with stdoutWrites := w1 }).map
           (fun o => (o.result.success, o.result.error)) =
       (execute s { e with stdoutWrites := w2 }).map
           (fun o => (o.result.success, o.result.error))) := by
  constructor
  · intro l hs hd
    unfold parseLineL
    rw [hs]
    dsimp only [if_true]
    unfold payloadDropped at hd
    cases hp : parseJsonObjectL (qtrimL (l.drop sentinelMark.length)) with
    | none => simp [hp]
    | some obj =>
      rw [hp] at hd
      rw [Bool.not_eq_true'] at hd
      rw [List.contains, List.elem_eq_mem, decide_eq_false_iff_not] at hd
      simp only [recognizedTypes, List.mem_cons, List.not_mem_nil, or_false, not_or] at hd
      obtain ⟨h1, h2, h3, h4, h5, h6, h7⟩ := hd
      simp [hp, h1, h2, h3, h4, h5, h6, h7]
  · intro s e w1 w2
    by_cases hd : divergesCall s.executionTimeout e = true
    · rw [execute_eq_none s { e with stdoutWrites := w1 } hd,
        execute_eq_none s { e with stdoutWrites := w2 } hd]
    · rw [Bool.not_eq_true] at hd
      by_cases ht : timesOut s.executionTimeout e = true
      · rw [execute_eq_timeout s { e with stdoutWrites := w1 } ht,
          execute_eq_timeout s { e with stdoutWrites := w2 } ht]
        rfl
      · rw [Bool.not_eq_true] at ht
        rw [execute_eq_normal s { e with stdoutWrites := w1 } hd ht,
          execute_eq_normal s { e with stdoutWrites := w2 } hd ht]
        rfl

/-- Witness for C7: a sentinel line with unparseable JSON and one with an
unrecognised `type` both contribute zero outputs. -/
theorem malformed_sentinel_line_dropped_witness :
    parseLineL "LOTUS_OUTPUT:notjson".data = [] ∧
    parseLineL "LOTUS_OUTPUT:\x7b\"type\":\"bogus\",\"content\":\"x\"\x7d".data = [] :=
  ⟨malformed_sentinel_line_dropped.1 _ rfl rfl,
   malformed_sentinel_line_dropped.1 _ rfl rfl⟩

/-- C8: whenever the raw captured stdout stream of an `execute` call is
non-empty but both the extracted plain text and the parsed rich outputs
are empty, the result carries exactly one text output wrapping the entire
raw stream (and an empty `textOutput`), so no output is silently lost. -/
theorem nonempty_stream_fallback_output (s : ExecState) (e : EvalSpec) (o : Outcome)
    (hx : execute s e = some o)
    (hraw : o.capturedStdout ≠ "")
    (htext : qtrimL (plainTextBefore (splitLines o.capturedStdout.data)) = [])
    (houts : parseRichOutputsL o.capturedStdout.data = []) :
    o.result.textOutput = "" ∧
    o.result.outputs = [⟨OutputType.Text, o.capturedStdout, []⟩] := by
  by_cases hd : divergesCall s.executionTimeout e = true
  · rw [execute_eq_none s e hd] at hx
    exact absurd hx (by simp)
  · rw [Bool.not_eq_true] at hd
    by_cases ht : timesOut s.executionTimeout e = true
    · rw [execute_eq_timeout s e ht] at hx
      have ho := Option.some.inj hx
      rw [← ho] at hraw
      exact absurd rfl hraw
    · rw [Bool.not_eq_true] at ht
      rw [execute_eq_normal s e hd ht] at hx
      have ho := Option.some.inj hx
      subst ho
      simp only [normalOutcome] at hraw htext houts ⊢
      have hnil := data_ne_nil hraw
      constructor
      · rw [processStdoutL, if_neg hnil]
        simp [htext]
      · rw [processStdoutL, if_neg hnil]
        simp [htext, houts, string_mk_data]

/-- Witness for C8: a stream consisting solely of a malformed sentinel
line is wrapped whole as one text output. -/
theorem nonempty_stream_fallback_output_witness :
    outSentinelBad.result.textOutput = "" ∧
    outSentinelBad.result.outputs = [⟨OutputType.Text, outSentinelBad.capturedStdout, []⟩] :=
  nonempty_stream_fallback_output freshExecutor evalSentinelBad outSentinelBad
    rfl (by decide) rfl rfl

set_option maxRecDepth 4000 in
/-- C9: the recorded representation of a snapshot binding is not capped —
after `x = 'a' * 150` the snapshot contains the full 150-character repr
verbatim, although the 100-character ellipsis truncation
(`parsePythonValue`, which no code ever calls) would have shortened it. -/
theorem snapshot_repr_not_capped :
    (∃ o, execute sessionReady evalBindX = some o ∧
       ("x", "str", longRepr) ∈ getVariables o.state) ∧
    100 < longRepr.length ∧ parsePythonValue longRepr ≠ longRepr := by
  refine ⟨⟨outBindX, rfl, ?_⟩, ?_, ?_⟩ <;> decide

/-- C10 (counterexample): on a timed-out call the stderr sink is not
drained — the snippet wrote `warn` to stderr, yet the returned error is
exactly the timeout message, which does not start with (or contain) the
stderr text; the text instead stays behind in the sink buffer. -/
theorem timeout_call_drops_stderr_from_error :
    (execute freshExecutor evalWarnThenLoop).map
        (fun o => (o.result.error, ("warn".data).isPrefixOf o.result.error.data,
          o.state.stderrBuf)) =
      some ("Execution timed out after 10 seconds", false, "warn") ∧
    evalWarnThenLoop.stderrWrites = "warn" :=
  ⟨rfl, rfl⟩

/-- C10 (amended): for every `execute` call that returns without timing
out (entered with a clean stderr sink), any text the snippet wrote to
stderr is copied into `ExecutionResult.error`, prepended before the
exception rendering when one exists — also when the evaluation succeeded,
so a `success = true` result can carry a non-empty `error`.  On a
timed-out call nothing is copied. -/
theorem stderr_prepended_to_error (s : ExecState) (e : EvalSpec) (o : Outcome)
    (hinit : s.initialized = true)
    (hbuf : s.stderrBuf = "")
    (hx : execute s e = some o)
    (ht : timesOut s.executionTimeout e = false) :
    o.result.success = e.raises.isNone ∧
    o.result.error =
      (if e.stderrWrites = "" then evalErrorOf e
       else if evalErrorOf e = "" then e.stderrWrites
       else e.stderrWrites ++ "\n" ++ evalErrorOf e) := by
  by_cases hd : divergesCall s.executionTimeout e = true
  · rw [execute_eq_none s e hd] at hx
    exact absurd hx (by simp)
  · rw [Bool.not_eq_true] at hd
    rw [execute_eq_normal s e hd ht] at hx
    have ho := Option.some.inj hx
    subst ho
    have hst : (evalState (prepared s) e).stderrBuf = e.stderrWrites := by
      show (prepared s).stderrBuf ++ e.stderrWrites = e.stderrWrites
      rw [prepared_of_initialized s hinit]
      show s.stderrBuf ++ e.stderrWrites = e.stderrWrites
      rw [hbuf]
      rfl
    refine ⟨rfl, ?_⟩
    show (if (evalState (prepared s) e).stderrBuf = "" then evalErrorOf e
          else if evalErrorOf e = "" then (evalState (prepared s) e).stderrBuf
          else (evalState (prepared s) e).stderrBuf ++ "\n" ++ evalErrorOf e) = _
    rw [hst]

/-- Witness for C10: a successful run that wrote `warning` to stderr
returns `success = true` together with the non-empty error `warning`. -/
theorem stderr_prepended_to_error_witness :
    (outWarnOk.result.success = evalWarnOk.raises.isNone ∧
      outWarnOk.result.error =
        (if evalWarnOk.stderrWrites = "" then evalErrorOf evalWarnOk
         else if evalErrorOf evalWarnOk = "" then evalWarnOk.stderrWrites
         else evalWarnOk.stderrWrites ++ "\n" ++ evalErrorOf evalWarnOk)) ∧
    outWarnOk.result.success = true ∧ outWarnOk.result.error = "warning" :=
  ⟨stderr_prepended_to_error sessionReady evalWarnOk outWarnOk rfl rfl rfl rfl, rfl, rfl⟩

end LotusNotebook
